import Mathlib

/-!
Verification of the ZecKit devnet bring-up orchestrator
(`src/cli/src/commands/up.rs`) against its specification.

The Rust command `execute(backend, fresh)` drives one run: an optional
`compose.down(true)` reset, a `compose.up(services)` start with services
chosen by matching the backend string, three sequential readiness waits
(zebra node, faucet, then the backend unless the backend string is
"none"), a progress spinner finalized on success, and a printed
connection report.

The embedding models the external collaborators (container runtime and
health prober) by a record of their results, and records every
collaborator call and progress-sink operation in an event trace.
Service names follow the source: the spec's "node" is `"zebra"`, its
"wallet-server" is `"lightwalletd"`, its "wallet-indexer" is `"zaino"`.
-/

/-- Observable actions of one run: container-runtime calls, health-prober
waits, and progress-sink operations, in the order they happen. -/
inductive Event where
  | reset (discardData : Bool)
  | start (services : List String)
  | createProgress
  | setMessage (msg : String)
  | waitNode
  | waitFaucet
  | waitBackend (backendId : String)
  | finalize (msg : String)
  | report (lines : List String)
  deriving DecidableEq, Repr

/-- Results the external collaborators return when called: the container
runtime's `down` and `up`, and the health prober's three waits. -/
structure Collab (ε : Type) where
  downRes : Except ε Unit
  upRes : List String → Except ε Unit
  nodeRes : Except ε Unit
  faucetRes : Except ε Unit
  backendRes : String → Except ε Unit

/-- The service-topology match in `execute` (up.rs lines 22-26):
`"lwd"` and `"zaino"` choose a three-service stack, anything else the
minimal `["zebra", "faucet"]`. -/
def selectServices (backend : String) : List String :=
  if backend = "lwd" then ["zebra", "faucet", "lightwalletd"]
  else if backend = "zaino" then ["zebra", "faucet", "zaino"]
  else ["zebra", "faucet"]

/-- The lines printed by `print_connection_info` (up.rs lines 59-79),
with terminal coloring stripped (out of scope per the spec). -/
def print_connection_info (backend : String) : List String :=
  ["",
   "━━━━━━━━━━━━━━━━━━━━━━━━━━━━━━━━━━━━━━",
   "  Services Ready",
   "━━━━━━━━━━━━━━━━━━━━━━━━━━━━━━━━━━━━━━",
   ""]
  ++ ["  Zebra RPC: http://127.0.0.1:8232",
      "  Faucet API: http://127.0.0.1:8080"]
  ++ (if backend = "lwd" then ["  LightwalletD: http://127.0.0.1:9067"]
      else if backend = "zaino" then ["  Zaino: http://127.0.0.1:9067 (experimental)"]
      else [])
  ++ ["",
      "Next steps:",
      "  • Test faucet: curl http://127.0.0.1:8080/stats",
      "  • Run tests: zecdev test",
      "  • Check status: zecdev status",
      ""]

/-- Trace contributed by the fresh-start reset block (up.rs lines 16-19). -/
def resetTrace (fresh : Bool) : List Event :=
  if fresh then [Event.reset true] else []

/-- The orchestrator `execute` (up.rs lines 7-57), as a function from the
collaborators' results to the run's outcome and its event trace.  Each
`?` early return in the source becomes an error branch that stops the
trace at that point. -/
def execute {ε : Type} (C : Collab ε) (backend : String) (fresh : Bool) :
    Except ε Unit × List Event :=
  match (if fresh then C.downRes else Except.ok ()) with
  | Except.error e => (Except.error e, [Event.reset true])
  | Except.ok _ =>
    match C.upRes (selectServices backend) with
    | Except.error e =>
        (Except.error e,
         resetTrace fresh ++ [Event.start (selectServices backend)])
    | Except.ok _ =>
      match C.nodeRes with
      | Except.error e =>
          (Except.error e,
           resetTrace fresh ++
             [Event.start (selectServices backend), Event.createProgress,
              Event.setMessage "Waiting for Zebra...", Event.waitNode])
      | Except.ok _ =>
        match C.faucetRes with
        | Except.error e =>
            (Except.error e,
             resetTrace fresh ++
               [Event.start (selectServices backend), Event.createProgress,
                Event.setMessage "Waiting for Zebra...", Event.waitNode,
                Event.setMessage "Waiting for Faucet...", Event.waitFaucet])
        | Except.ok _ =>
          if backend ≠ "none" then
            match C.backendRes backend with
            | Except.error e =>
                (Except.error e,
                 resetTrace fresh ++
                   [Event.start (selectServices backend), Event.createProgress,
                    Event.setMessage "Waiting for Zebra...", Event.waitNode,
                    Event.setMessage "Waiting for Faucet...", Event.waitFaucet,
                    Event.setMessage ("Waiting for " ++ backend ++ "..."),
                    Event.waitBackend backend])
            | Except.ok _ =>
                (Except.ok (),
                 resetTrace fresh ++
                   [Event.start (selectServices backend), Event.createProgress,
                    Event.setMessage "Waiting for Zebra...", Event.waitNode,
                    Event.setMessage "Waiting for Faucet...", Event.waitFaucet,
                    Event.setMessage ("Waiting for " ++ backend ++ "..."),
                    Event.waitBackend backend,
                    Event.finalize "✓ All services ready!",
                    Event.report (print_connection_info backend)])
          else
            (Except.ok (),
             resetTrace fresh ++
               [Event.start (selectServices backend), Event.createProgress,
                Event.setMessage "Waiting for Zebra...", Event.waitNode,
                Event.setMessage "Waiting for Faucet...", Event.waitFaucet,
                Event.finalize "✓ All services ready!",
                Event.report (print_connection_info backend)])

/-- Recognizes the three health-prober wait events. -/
def isWaitEvent : Event → Bool
  | Event.waitNode => true
  | Event.waitFaucet => true
  | Event.waitBackend _ => true
  | _ => false

/-- Recognizes a connection-report emission. -/
def isReportEvent : Event → Bool
  | Event.report _ => true
  | _ => false

/-- Recognizes the progress sink's finalize operation. -/
def isFinalizeEvent : Event → Bool
  | Event.finalize _ => true
  | _ => false

/-- Recognizes the creation of the progress reporter. -/
def isCreateEvent : Event → Bool
  | Event.createProgress => true
  | _ => false

/-- Recognizes a container-runtime reset request. -/
def isResetEvent : Event → Bool
  | Event.reset _ => true
  | _ => false

/-- Whether the run's outcome is a success. -/
def isOkResult {ε : Type} : Except ε Unit → Bool
  | Except.ok _ => true
  | Except.error _ => false

/-- The fixed address and port shared by both backend endpoints. -/
def backendEndpoint : String := "http://127.0.0.1:9067"

/-- Whether `pat` is an initial segment of `text`. -/
def leadsWith : List Char → List Char → Bool
  | [], _ => true
  | _ :: _, [] => false
  | a :: as, b :: bs => a == b && leadsWith as bs

/-- Whether `pat` occurs contiguously somewhere in `text`. -/
def hasSub (pat : List Char) : List Char → Bool
  | [] => pat.isEmpty
  | b :: rest => leadsWith pat (b :: rest) || hasSub pat rest

/-- Whether a report line mentions the experimental annotation. -/
def mentionsExperimental (l : String) : Bool :=
  hasSub "experimental".toList l.toList

/-- Collaborators that all succeed, for concrete runs. -/
def allOk : Collab String :=
  { downRes := Except.ok ()
    upRes := fun _ => Except.ok ()
    nodeRes := Except.ok ()
    faucetRes := Except.ok ()
    backendRes := fun _ => Except.ok () }

/-- Collaborators whose node readiness wait fails. -/
def nodeFail : Collab String :=
  { downRes := Except.ok ()
    upRes := fun _ => Except.ok ()
    nodeRes := Except.error "node down"
    faucetRes := Except.ok ()
    backendRes := fun _ => Except.ok () }

/-! ### Helper lemmas about traces -/

theorem mem_resetTrace (e : Event) (fresh : Bool) :
    e ∈ resetTrace fresh ↔ (fresh = true ∧ e = Event.reset true) := by
  cases fresh <;> simp [resetTrace]

theorem filter_wait_resetTrace (fresh : Bool) :
    (resetTrace fresh).filter isWaitEvent = [] := by
  cases fresh <;> simp [resetTrace, isWaitEvent]

theorem countP_report_resetTrace (fresh : Bool) :
    (resetTrace fresh).countP isReportEvent = 0 := by
  cases fresh <;> simp [resetTrace, isReportEvent]

theorem countP_finalize_resetTrace (fresh : Bool) :
    (resetTrace fresh).countP isFinalizeEvent = 0 := by
  cases fresh <;> simp [resetTrace, isFinalizeEvent]

theorem countP_create_resetTrace (fresh : Bool) :
    (resetTrace fresh).countP isCreateEvent = 0 := by
  cases fresh <;> simp [resetTrace, isCreateEvent]

/-! ### Equation lemmas for each control-flow path of `execute` -/

theorem execute_down_err {ε : Type} (C : Collab ε) (backend : String) {fresh : Bool}
    {e : ε} (hfr : fresh = true) (hd : C.downRes = Except.error e) :
    execute C backend fresh = (Except.error e, [Event.reset true]) := by
  subst hfr; simp [execute, hd]

theorem execute_up_err {ε : Type} (C : Collab ε) (backend : String) {fresh : Bool}
    {e : ε} (hd : fresh = true → C.downRes = Except.ok ())
    (hu : C.upRes (selectServices backend) = Except.error e) :
    execute C backend fresh =
      (Except.error e, resetTrace fresh ++ [Event.start (selectServices backend)]) := by
  cases fresh with
  | false => simp [execute, hu, resetTrace]
  | true => simp [execute, hd rfl, hu, resetTrace]

theorem execute_node_err {ε : Type} (C : Collab ε) (backend : String) {fresh : Bool}
    {e : ε} (hd : fresh = true → C.downRes = Except.ok ())
    (hu : C.upRes (selectServices backend) = Except.ok ())
    (hn : C.nodeRes = Except.error e) :
    execute C backend fresh =
      (Except.error e,
       resetTrace fresh ++
         [Event.start (selectServices backend), Event.createProgress,
          Event.setMessage "Waiting for Zebra...", Event.waitNode]) := by
  cases fresh with
  | false => simp [execute, hu, hn, resetTrace]
  | true => simp [execute, hd rfl, hu, hn, resetTrace]

theorem execute_faucet_err {ε : Type} (C : Collab ε) (backend : String) {fresh : Bool}
    {e : ε} (hd : fresh = true → C.downRes = Except.ok ())
    (hu : C.upRes (selectServices backend) = Except.ok ())
    (hn : C.nodeRes = Except.ok ()) (hf : C.faucetRes = Except.error e) :
    execute C backend fresh =
      (Except.error e,
       resetTrace fresh ++
         [Event.start (selectServices backend), Event.createProgress,
          Event.setMessage "Waiting for Zebra...", Event.waitNode,
          Event.setMessage "Waiting for Faucet...", Event.waitFaucet]) := by
  cases fresh with
  | false => simp [execute, hu, hn, hf, resetTrace]
  | true => simp [execute, hd rfl, hu, hn, hf, resetTrace]

theorem execute_backend_err {ε : Type} (C : Collab ε) {backend : String} {fresh : Bool}
    {e : ε} (hd : fresh = true → C.downRes = Except.ok ())
    (hu : C.upRes (selectServices backend) = Except.ok ())
    (hn : C.nodeRes = Except.ok ()) (hf : C.faucetRes = Except.ok ())
    (hne : backend ≠ "none") (hb : C.backendRes backend = Except.error e) :
    execute C backend fresh =
      (Except.error e,
       resetTrace fresh ++
         [Event.start (selectServices backend), Event.createProgress,
          Event.setMessage "Waiting for Zebra...", Event.waitNode,
          Event.setMessage "Waiting for Faucet...", Event.waitFaucet,
          Event.setMessage ("Waiting for " ++ backend ++ "..."),
          Event.waitBackend backend]) := by
  cases fresh with
  | false => simp [execute, hu, hn, hf, hne, hb, resetTrace]
  | true => simp [execute, hd rfl, hu, hn, hf, hne, hb, resetTrace]

theorem execute_ok_backend {ε : Type} (C : Collab ε) {backend : String} {fresh : Bool}
    (hd : fresh = true → C.downRes = Except.ok ())
    (hu : C.upRes (selectServices backend) = Except.ok ())
    (hn : C.nodeRes = Except.ok ()) (hf : C.faucetRes = Except.ok ())
    (hne : backend ≠ "none") (hb : C.backendRes backend = Except.ok ()) :
    execute C backend fresh =
      (Except.ok (),
       resetTrace fresh ++
         [Event.start (selectServices backend), Event.createProgress,
          Event.setMessage "Waiting for Zebra...", Event.waitNode,
          Event.setMessage "Waiting for Faucet...", Event.waitFaucet,
          Event.setMessage ("Waiting for " ++ backend ++ "..."),
          Event.waitBackend backend,
          Event.finalize "✓ All services ready!",
          Event.report (print_connection_info backend)]) := by
  cases fresh with
  | false => simp [execute, hu, hn, hf, hne, hb, resetTrace]
  | true => simp [execute, hd rfl, hu, hn, hf, hne, hb, resetTrace]

theorem execute_ok_none {ε : Type} (C : Collab ε) {backend : String} {fresh : Bool}
    (hd : fresh = true → C.downRes = Except.ok ())
    (hu : C.upRes (selectServices backend) = Except.ok ())
    (hn : C.nodeRes = Except.ok ()) (hf : C.faucetRes = Except.ok ())
    (hnone : backend = "none") :
    execute C backend fresh =
      (Except.ok (),
       resetTrace fresh ++
         [Event.start (selectServices backend), Event.createProgress,
          Event.setMessage "Waiting for Zebra...", Event.waitNode,
          Event.setMessage "Waiting for Faucet...", Event.waitFaucet,
          Event.finalize "✓ All services ready!",
          Event.report (print_connection_info backend)]) := by
  subst hnone
  cases fresh with
  | false => simp [execute, hu, hn, hf, resetTrace]
  | true => simp [execute, hd rfl, hu, hn, hf, resetTrace]

/-! ### Exhaustive case split over a run's collaborator results -/

theorem except_cases {ε : Type} (x : Except ε Unit) :
    x = Except.ok () ∨ ∃ e, x = Except.error e := by
  cases x with
  | ok u => cases u; exact Or.inl rfl
  | error e => exact Or.inr ⟨e, rfl⟩

theorem execute_scenarios {ε : Type} (C : Collab ε) (backend : String) (fresh : Bool) :
    (∃ e, fresh = true ∧ C.downRes = Except.error e) ∨
    ((fresh = true → C.downRes = Except.ok ()) ∧
      ((∃ e, C.upRes (selectServices backend) = Except.error e) ∨
       (C.upRes (selectServices backend) = Except.ok () ∧
         ((∃ e, C.nodeRes = Except.error e) ∨
          (C.nodeRes = Except.ok () ∧
            ((∃ e, C.faucetRes = Except.error e) ∨
             (C.faucetRes = Except.ok () ∧
               (backend = "none" ∨
                (backend ≠ "none" ∧
                  ((∃ e, C.backendRes backend = Except.error e) ∨
                   C.backendRes backend = Except.ok ())))))))))) := by
  have hdok : (fresh = true → C.downRes = Except.ok ()) ∨
      (∃ e, fresh = true ∧ C.downRes = Except.error e) := by
    cases fresh with
    | false => exact Or.inl (fun h => nomatch h)
    | true =>
      rcases except_cases C.downRes with h | ⟨e, h⟩
      · exact Or.inl (fun _ => h)
      · exact Or.inr ⟨e, rfl, h⟩
  rcases hdok with hdok | hderr
  · right
    refine ⟨hdok, ?_⟩
    rcases except_cases (C.upRes (selectServices backend)) with hu | ⟨e, hu⟩
    · right
      refine ⟨hu, ?_⟩
      rcases except_cases C.nodeRes with hn | ⟨e, hn⟩
      · right
        refine ⟨hn, ?_⟩
        rcases except_cases C.faucetRes with hf | ⟨e, hf⟩
        · right
          refine ⟨hf, ?_⟩
          by_cases hb : backend = "none"
          · exact Or.inl hb
          · right
            refine ⟨hb, ?_⟩
            rcases except_cases (C.backendRes backend) with hba | ⟨e, hba⟩
            · exact Or.inr hba
            · exact Or.inl ⟨e, hba⟩
        · exact Or.inl ⟨e, hf⟩
      · exact Or.inl ⟨e, hn⟩
    · exact Or.inl ⟨e, hu⟩
  · exact Or.inl hderr

theorem report_mem_of_ok {ε : Type} (C : Collab ε) (backend : String) (fresh : Bool)
    (hok : isOkResult (execute C backend fresh).1 = true) :
    Event.report (print_connection_info backend) ∈ (execute C backend fresh).2 := by
  rcases execute_scenarios C backend fresh with ⟨e, hfr, hd⟩ | ⟨hdok, hrest⟩
  · rw [execute_down_err C backend hfr hd] at hok; simp [isOkResult] at hok
  · rcases hrest with ⟨e, hu⟩ | ⟨hu, hrest⟩
    · rw [execute_up_err C backend hdok hu] at hok; simp [isOkResult] at hok
    · rcases hrest with ⟨e, hn⟩ | ⟨hn, hrest⟩
      · rw [execute_node_err C backend hdok hu hn] at hok; simp [isOkResult] at hok
      · rcases hrest with ⟨e, hf⟩ | ⟨hf, hrest⟩
        · rw [execute_faucet_err C backend hdok hu hn hf] at hok
          simp [isOkResult] at hok
        · rcases hrest with hb | ⟨hb, hrest⟩
          · rw [execute_ok_none C hdok hu hn hf hb]; simp
          · rcases hrest with ⟨e, hba⟩ | hba
            · rw [execute_backend_err C hdok hu hn hf hb hba] at hok
              simp [isOkResult] at hok
            · rw [execute_ok_backend C hdok hu hn hf hb hba]; simp

theorem waitBackend_not_mem_none {ε : Type} (C : Collab ε) (fresh : Bool) (b : String) :
    Event.waitBackend b ∉ (execute C "none" fresh).2 := by
  rcases execute_scenarios C "none" fresh with ⟨e, hfr, hd⟩ | ⟨hdok, hrest⟩
  · rw [execute_down_err C "none" hfr hd]; simp
  · rcases hrest with ⟨e, hu⟩ | ⟨hu, hrest⟩
    · rw [execute_up_err C "none" hdok hu]; simp [mem_resetTrace]
    · rcases hrest with ⟨e, hn⟩ | ⟨hn, hrest⟩
      · rw [execute_node_err C "none" hdok hu hn]; simp [mem_resetTrace]
      · rcases hrest with ⟨e, hf⟩ | ⟨hf, hrest⟩
        · rw [execute_faucet_err C "none" hdok hu hn hf]; simp [mem_resetTrace]
        · rcases hrest with hb | ⟨hb, _⟩
          · rw [execute_ok_none C hdok hu hn hf hb]; simp [mem_resetTrace]
          · exact absurd rfl hb

/-! ### Claim theorems -/

/-- C4: the topology selection is a pure deterministic function of the backend
string: `"lwd"` maps to the three services node, faucet, wallet-server
(`zebra`, `faucet`, `lightwalletd`), `"zaino"` to node, faucet, wallet-indexer
(`zebra`, `faucet`, `zaino`), each starting with node then faucet, and every
other string (including `"none"`) maps to exactly `[node, faucet]`. -/
theorem C4_topology_selection (b : String) (h1 : b ≠ "lwd") (h2 : b ≠ "zaino") :
    selectServices "lwd" = ["zebra", "faucet", "lightwalletd"] ∧
    selectServices "zaino" = ["zebra", "faucet", "zaino"] ∧
    (selectServices "lwd").take 2 = ["zebra", "faucet"] ∧
    (selectServices "zaino").take 2 = ["zebra", "faucet"] ∧
    selectServices "none" = ["zebra", "faucet"] ∧
    selectServices b = ["zebra", "faucet"] := by
  refine ⟨by decide, by decide, by decide, by decide, by decide, ?_⟩
  simp [selectServices, h1, h2]

/-- Witness for C4 at the concrete unrecognized backend `"custom"`. -/
theorem C4_topology_selection_witness :
    (("custom" : String) ≠ "lwd" ∧ ("custom" : String) ≠ "zaino") ∧
    selectServices "custom" = ["zebra", "faucet"] :=
  ⟨⟨by decide, by decide⟩,
   (C4_topology_selection "custom" (by decide) (by decide)).2.2.2.2.2⟩

/-- C3 counterexample: for the unrecognized backend `"foo"` (not `"lwd"`,
`"zaino"`, or `"none"`), the run does degrade to the minimal topology, but the
backend readiness wait IS invoked — `execute` only skips it when the backend
string is exactly `"none"` — refuting "the backend readiness wait is never
invoked for any such identifier". -/
theorem C3_counterexample :
    (("foo" : String) ≠ "lwd" ∧ ("foo" : String) ≠ "zaino") ∧
    selectServices "foo" = ["zebra", "faucet"] ∧
    Event.waitBackend "foo" ∈ (execute allOk "foo" false).2 := by
  exact ⟨⟨by decide, by decide⟩, by decide, by decide⟩

/-- C3 (amended): for every backend identifier not in `{"lwd", "zaino"}`, the
topology degrades to the minimal `[node, faucet]`; the backend readiness
phase is skipped only when the identifier is exactly `"none"`; for any other
unrecognized identifier the backend readiness wait is still invoked (with
that identifier) once the earlier phases succeed. -/
theorem C3_amended_unrecognized_backend {ε : Type} (C : Collab ε)
    (backend : String) (fresh : Bool) (h1 : backend ≠ "lwd") (h2 : backend ≠ "zaino") :
    selectServices backend = ["zebra", "faucet"] ∧
    (backend = "none" → ∀ b, Event.waitBackend b ∉ (execute C backend fresh).2) ∧
    (backend ≠ "none" →
      (fresh = true → C.downRes = Except.ok ()) →
      C.upRes ["zebra", "faucet"] = Except.ok () →
      C.nodeRes = Except.ok () → C.faucetRes = Except.ok () →
      Event.waitBackend backend ∈ (execute C backend fresh).2) := by
  have hsel : selectServices backend = ["zebra", "faucet"] := by
    simp [selectServices, h1, h2]
  refine ⟨hsel, ?_, ?_⟩
  · rintro rfl b
    exact waitBackend_not_mem_none C fresh b
  · intro hne hdok hu hn hf
    have hu' : C.upRes (selectServices backend) = Except.ok () := by rw [hsel]; exact hu
    rcases except_cases (C.backendRes backend) with hba | ⟨e, hba⟩
    · rw [execute_ok_backend C hdok hu' hn hf hne hba]; simp
    · rw [execute_backend_err C hdok hu' hn hf hne hba]; simp

/-- Witness for C3's amended theorem at the concrete backend `"foo"` with
all-succeeding collaborators. -/
theorem C3_amended_unrecognized_backend_witness :
    selectServices "foo" = ["zebra", "faucet"] ∧
    Event.waitBackend "foo" ∈ (execute allOk "foo" false).2 :=
  ⟨(C3_amended_unrecognized_backend allOk "foo" false (by decide) (by decide)).1,
   (C3_amended_unrecognized_backend allOk "foo" false (by decide) (by decide)).2.2
     (by decide) (fun _ => rfl) rfl rfl rfl⟩

/-- C9: the connection report's endpoints are fixed: the node RPC line is
`http://127.0.0.1:8232`, the faucet API line is `http://127.0.0.1:8080`, and
both backends share the backend endpoint `http://127.0.0.1:9067`; on every
successful run this report is emitted. -/
theorem C9_fixed_endpoints {ε : Type} (C : Collab ε) (backend : String) (fresh : Bool) :
    "  Zebra RPC: http://127.0.0.1:8232" ∈ print_connection_info backend ∧
    "  Faucet API: http://127.0.0.1:8080" ∈ print_connection_info backend ∧
    ("  LightwalletD: " ++ backendEndpoint) ∈ print_connection_info "lwd" ∧
    ("  Zaino: " ++ backendEndpoint ++ " (experimental)") ∈ print_connection_info "zaino" ∧
    (isOkResult (execute C backend fresh).1 = true →
      Event.report (print_connection_info backend) ∈ (execute C backend fresh).2) := by
  refine ⟨?_, ?_, by decide, by decide, report_mem_of_ok C backend fresh⟩
  · simp [print_connection_info]
  · simp [print_connection_info]

/-- Witness for C9 at a concrete successful run. -/
theorem C9_fixed_endpoints_witness :
    Event.report (print_connection_info "lwd") ∈ (execute allOk "lwd" false).2 :=
  (C9_fixed_endpoints allOk "lwd" false).2.2.2.2 rfl

/-- C6: with the no-backend value `"none"` the backend readiness wait is never
invoked and the successful run's report is emitted without a backend line;
a backend endpoint line occurs in the report exactly when the backend
identifier is one of the recognized values `"lwd"` or `"zaino"`. -/
theorem C6_none_skips_backend {ε : Type} (C : Collab ε) (fresh : Bool) (backend : String) :
    (∀ b, Event.waitBackend b ∉ (execute C "none" fresh).2) ∧
    (isOkResult (execute C "none" fresh).1 = true →
      Event.report (print_connection_info "none") ∈ (execute C "none" fresh).2) ∧
    (("  LightwalletD: http://127.0.0.1:9067" ∈ print_connection_info backend ∨
      "  Zaino: http://127.0.0.1:9067 (experimental)" ∈ print_connection_info backend) ↔
      (backend = "lwd" ∨ backend = "zaino")) := by
  refine ⟨waitBackend_not_mem_none C fresh,
    report_mem_of_ok C "none" fresh, ?_⟩
  by_cases hb1 : backend = "lwd"
  · subst hb1; decide
  · by_cases hb2 : backend = "zaino"
    · subst hb2; decide
    · simp [print_connection_info, hb1, hb2]

/-- Witness for C6 at concrete inputs. -/
theorem C6_none_skips_backend_witness :
    Event.waitBackend "lwd" ∉ (execute allOk "none" false).2 ∧
    Event.report (print_connection_info "none") ∈ (execute allOk "none" false).2 ∧
    (("  LightwalletD: http://127.0.0.1:9067" ∈ print_connection_info "none" ∨
      "  Zaino: http://127.0.0.1:9067 (experimental)" ∈ print_connection_info "none") ↔
      (("none" : String) = "lwd" ∨ ("none" : String) = "zaino")) :=
  ⟨(C6_none_skips_backend allOk false "none").1 "lwd",
   (C6_none_skips_backend allOk false "none").2.1 rfl,
   (C6_none_skips_backend allOk false "none").2.2⟩

/-- C1: the readiness waits occur strictly in the order node, then faucet,
then backend: the wait events of any trace form an initial segment of
`[waitNode, waitFaucet, waitBackend backend]`, the faucet wait is invoked
only after the node wait returned successfully, and the backend wait only
after the faucet (and node) waits returned successfully. -/
theorem C1_wait_order {ε : Type} (C : Collab ε) (backend : String) (fresh : Bool) :
    ((execute C backend fresh).2.filter isWaitEvent = [] ∨
     (execute C backend fresh).2.filter isWaitEvent = [Event.waitNode] ∨
     (execute C backend fresh).2.filter isWaitEvent = [Event.waitNode, Event.waitFaucet] ∨
     (execute C backend fresh).2.filter isWaitEvent =
       [Event.waitNode, Event.waitFaucet, Event.waitBackend backend]) ∧
    (Event.waitFaucet ∈ (execute C backend fresh).2 → C.nodeRes = Except.ok ()) ∧
    (∀ b, Event.waitBackend b ∈ (execute C backend fresh).2 →
      C.nodeRes = Except.ok () ∧ C.faucetRes = Except.ok ()) := by
  rcases execute_scenarios C backend fresh with ⟨e, hfr, hd⟩ | ⟨hdok, hrest⟩
  · rw [execute_down_err C backend hfr hd]
    simp [isWaitEvent]
  · rcases hrest with ⟨e, hu⟩ | ⟨hu, hrest⟩
    · rw [execute_up_err C backend hdok hu]
      simp [isWaitEvent, List.filter_append, filter_wait_resetTrace, mem_resetTrace]
    · rcases hrest with ⟨e, hn⟩ | ⟨hn, hrest⟩
      · rw [execute_node_err C backend hdok hu hn]
        simp [isWaitEvent, List.filter_append, filter_wait_resetTrace, mem_resetTrace]
      · rcases hrest with ⟨e, hf⟩ | ⟨hf, hrest⟩
        · rw [execute_faucet_err C backend hdok hu hn hf]
          simp [isWaitEvent, List.filter_append, filter_wait_resetTrace, mem_resetTrace, hn]
        · rcases hrest with hb | ⟨hb, hrest⟩
          · rw [execute_ok_none C hdok hu hn hf hb]
            simp [isWaitEvent, List.filter_append, filter_wait_resetTrace, mem_resetTrace, hn]
          · rcases hrest with ⟨e, hba⟩ | hba
            · rw [execute_backend_err C hdok hu hn hf hb hba]
              simp [isWaitEvent, List.filter_append, filter_wait_resetTrace, mem_resetTrace,
                hn, hf]
            · rw [execute_ok_backend C hdok hu hn hf hb hba]
              simp [isWaitEvent, List.filter_append, filter_wait_resetTrace, mem_resetTrace,
                hn, hf]

/-- Witness for C1 at a concrete run invoking all three waits. -/
theorem C1_wait_order_witness :
    Event.waitFaucet ∈ (execute allOk "lwd" false).2 ∧
    allOk.nodeRes = Except.ok () ∧
    (allOk.nodeRes = Except.ok () ∧ allOk.faucetRes = Except.ok ()) :=
  ⟨by decide, (C1_wait_order allOk "lwd" false).2.1 (by decide),
   (C1_wait_order allOk "lwd" false).2.2 "lwd" (by decide)⟩

/-- C2: whichever phase (reset, start, node wait, faucet wait, backend wait)
fails first, `execute` returns that phase's error unchanged, invokes no later
phase, emits no connection report and no finalize; in particular a node-wait
failure means neither the faucet nor the backend wait is ever invoked. -/
theorem C2_error_propagation {ε : Type} (C : Collab ε) (backend : String)
    (fresh : Bool) (e : ε) :
    (fresh = true → C.downRes = Except.error e →
      execute C backend fresh = (Except.error e, [Event.reset true])) ∧
    ((fresh = true → C.downRes = Except.ok ()) →
      C.upRes (selectServices backend) = Except.error e →
      (execute C backend fresh).1 = Except.error e ∧
      (execute C backend fresh).2.filter isWaitEvent = [] ∧
      (execute C backend fresh).2.countP isReportEvent = 0 ∧
      (execute C backend fresh).2.countP isFinalizeEvent = 0) ∧
    ((fresh = true → C.downRes = Except.ok ()) →
      C.upRes (selectServices backend) = Except.ok () →
      C.nodeRes = Except.error e →
      (execute C backend fresh).1 = Except.error e ∧
      Event.waitFaucet ∉ (execute C backend fresh).2 ∧
      (∀ b, Event.waitBackend b ∉ (execute C backend fresh).2) ∧
      (execute C backend fresh).2.countP isReportEvent = 0 ∧
      (execute C backend fresh).2.countP isFinalizeEvent = 0) ∧
    ((fresh = true → C.downRes = Except.ok ()) →
      C.upRes (selectServices backend) = Except.ok () →
      C.nodeRes = Except.ok () →
      C.faucetRes = Except.error e →
      (execute C backend fresh).1 = Except.error e ∧
      (∀ b, Event.waitBackend b ∉ (execute C backend fresh).2) ∧
      (execute C backend fresh).2.countP isReportEvent = 0 ∧
      (execute C backend fresh).2.countP isFinalizeEvent = 0) ∧
    ((fresh = true → C.downRes = Except.ok ()) →
      C.upRes (selectServices backend) = Except.ok () →
      C.nodeRes = Except.ok () →
      C.faucetRes = Except.ok () →
      backend ≠ "none" →
      C.backendRes backend = Except.error e →
      (execute C backend fresh).1 = Except.error e ∧
      (execute C backend fresh).2.countP isReportEvent = 0 ∧
      (execute C backend fresh).2.countP isFinalizeEvent = 0) := by
  refine ⟨fun hfr hd => execute_down_err C backend hfr hd, ?_, ?_, ?_, ?_⟩
  · intro hdok hu
    rw [execute_up_err C backend hdok hu]
    simp [isWaitEvent, isReportEvent, isFinalizeEvent, List.filter_append, List.countP_append,
      filter_wait_resetTrace, countP_report_resetTrace, countP_finalize_resetTrace]
  · intro hdok hu hn
    rw [execute_node_err C backend hdok hu hn]
    simp [isWaitEvent, isReportEvent, isFinalizeEvent, List.filter_append, List.countP_append,
      filter_wait_resetTrace, countP_report_resetTrace, countP_finalize_resetTrace,
      mem_resetTrace]
  · intro hdok hu hn hf
    rw [execute_faucet_err C backend hdok hu hn hf]
    simp [isWaitEvent, isReportEvent, isFinalizeEvent, List.filter_append, List.countP_append,
      filter_wait_resetTrace, countP_report_resetTrace, countP_finalize_resetTrace,
      mem_resetTrace]
  · intro hdok hu hn hf hne hb
    rw [execute_backend_err C hdok hu hn hf hne hb]
    simp [isReportEvent, isFinalizeEvent, List.countP_append,
      countP_report_resetTrace, countP_finalize_resetTrace]

/-- Witness for C2: the node wait fails concretely; the error is returned,
the faucet wait is never invoked, and no report is emitted. -/
theorem C2_error_propagation_witness :
    (execute nodeFail "none" false).1 = Except.error "node down" ∧
    Event.waitFaucet ∉ (execute nodeFail "none" false).2 ∧
    (execute nodeFail "none" false).2.countP isReportEvent = 0 :=
  have h := (C2_error_propagation nodeFail "none" false "node down").2.2.1
    (fun hx => nomatch hx) rfl rfl
  ⟨h.1, h.2.1, h.2.2.2.1⟩

theorem execute_trace_shape {ε : Type} (C : Collab ε) (backend : String) (fresh : Bool) :
    (fresh = true ∧ (execute C backend fresh).2 = [Event.reset true]) ∨
    (∃ rest, (execute C backend fresh).2 = resetTrace fresh ++ rest ∧
      rest.countP isResetEvent = 0 ∧
      rest.head? = some (Event.start (selectServices backend))) := by
  rcases execute_scenarios C backend fresh with ⟨e, hfr, hd⟩ | ⟨hdok, hrest⟩
  · exact Or.inl ⟨hfr, by rw [execute_down_err C backend hfr hd]⟩
  · rcases hrest with ⟨e, hu⟩ | ⟨hu, hrest⟩
    · rw [execute_up_err C backend hdok hu]
      exact Or.inr ⟨_, rfl, by simp [isResetEvent], rfl⟩
    · rcases hrest with ⟨e, hn⟩ | ⟨hn, hrest⟩
      · rw [execute_node_err C backend hdok hu hn]
        exact Or.inr ⟨_, rfl, by simp [isResetEvent], rfl⟩
      · rcases hrest with ⟨e, hf⟩ | ⟨hf, hrest⟩
        · rw [execute_faucet_err C backend hdok hu hn hf]
          exact Or.inr ⟨_, rfl, by simp [isResetEvent], rfl⟩
        · rcases hrest with hb | ⟨hb, hrest⟩
          · rw [execute_ok_none C hdok hu hn hf hb]
            exact Or.inr ⟨_, rfl, by simp [isResetEvent], rfl⟩
          · rcases hrest with ⟨e, hba⟩ | hba
            · rw [execute_backend_err C hdok hu hn hf hb hba]
              exact Or.inr ⟨_, rfl, by simp [isResetEvent], rfl⟩
            · rw [execute_ok_backend C hdok hu hn hf hb hba]
              exact Or.inr ⟨_, rfl, by simp [isResetEvent], rfl⟩

/-- C5: a run with `fresh = true` issues exactly one reset request — with the
discard-data flag set — and it is the very first action, hence before any
start request; a run with `fresh = false` never issues a reset request. -/
theorem C5_reset_policy {ε : Type} (C : Collab ε) (backend : String) (fresh : Bool) :
    (fresh = true →
      (execute C backend fresh).2.countP isResetEvent = 1 ∧
      (execute C backend fresh).2.head? = some (Event.reset true)) ∧
    (fresh = false → (execute C backend fresh).2.countP isResetEvent = 0) := by
  constructor
  · rintro rfl
    rcases execute_trace_shape C backend true with ⟨_, htr⟩ | ⟨rest, htr, hcount, hhead⟩
    · rw [htr]
      exact ⟨by simp [isResetEvent], rfl⟩
    · rw [htr]
      refine ⟨?_, rfl⟩
      simp [List.countP_append, hcount, resetTrace, isResetEvent]
  · rintro rfl
    rcases execute_trace_shape C backend false with ⟨hcontra, _⟩ | ⟨rest, htr, hcount, _⟩
    · exact nomatch hcontra
    · rw [htr]
      simp [List.countP_append, hcount, resetTrace]

/-- Witness for C5 at concrete runs with and without a fresh start. -/
theorem C5_reset_policy_witness :
    ((execute allOk "none" true).2.countP isResetEvent = 1 ∧
     (execute allOk "none" true).2.head? = some (Event.reset true)) ∧
    (execute allOk "none" false).2.countP isResetEvent = 0 :=
  ⟨(C5_reset_policy allOk "none" true).1 rfl,
   (C5_reset_policy allOk "none" false).2 rfl⟩

/-- C7: with all collaborators succeeding, `execute "lwd" false` succeeds and
reports the node RPC, faucet API and wallet-server (LightwalletD) endpoints in
that order with no experimental annotation anywhere, while `execute "zaino"
false` succeeds and its backend line carries the experimental annotation. -/
theorem C7_end_to_end {ε : Type} (C : Collab ε)
    (hu : ∀ s, C.upRes s = Except.ok ())
    (hn : C.nodeRes = Except.ok ()) (hf : C.faucetRes = Except.ok ())
    (hb : ∀ b, C.backendRes b = Except.ok ()) :
    isOkResult (execute C "lwd" false).1 = true ∧
    Event.report (print_connection_info "lwd") ∈ (execute C "lwd" false).2 ∧
    List.Sublist ["  Zebra RPC: http://127.0.0.1:8232",
      "  Faucet API: http://127.0.0.1:8080",
      "  LightwalletD: http://127.0.0.1:9067"] (print_connection_info "lwd") ∧
    (∀ l ∈ print_connection_info "lwd", mentionsExperimental l = false) ∧
    isOkResult (execute C "zaino" false).1 = true ∧
    Event.report (print_connection_info "zaino") ∈ (execute C "zaino" false).2 ∧
    "  Zaino: http://127.0.0.1:9067 (experimental)" ∈ print_connection_info "zaino" ∧
    mentionsExperimental "  Zaino: http://127.0.0.1:9067 (experimental)" = true := by
  have h1 := @execute_ok_backend ε C "lwd" false
    (fun hx => nomatch hx) (hu _) hn hf (by decide) (hb _)
  have h2 := @execute_ok_backend ε C "zaino" false
    (fun hx => nomatch hx) (hu _) hn hf (by decide) (hb _)
  refine ⟨?_, ?_, by decide, by decide, ?_, ?_, by decide, by decide⟩
  · rw [h1]; rfl
  · rw [h1]; simp [resetTrace]
  · rw [h2]; rfl
  · rw [h2]; simp [resetTrace]

/-- Witness for C7 with concrete all-succeeding collaborators. -/
theorem C7_end_to_end_witness :
    isOkResult (execute allOk "lwd" false).1 = true ∧
    isOkResult (execute allOk "zaino" false).1 = true :=
  ⟨(C7_end_to_end allOk (fun _ => rfl) rfl rfl (fun _ => rfl)).1,
   (C7_end_to_end allOk (fun _ => rfl) rfl rfl (fun _ => rfl)).2.2.2.2.1⟩

/-- C8 counterexample: on the concrete failing run where the node wait fails,
the progress reporter is created but its finalize operation is never called,
refuting "finalize is called exactly once whether the run ends in success or
in failure". -/
theorem C8_counterexample :
    isOkResult (execute nodeFail "none" false).1 = false ∧
    (execute nodeFail "none" false).2.countP isCreateEvent = 1 ∧
    (execute nodeFail "none" false).2.countP isFinalizeEvent = 0 := by
  exact ⟨rfl, by decide, by decide⟩

/-- C8 (amended): the progress reporter is created at most once per run
(exactly once when the run succeeds), and its finalize operation is called
exactly once when the run ends in success and never when it ends in
failure. -/
theorem C8_amended_progress_lifecycle {ε : Type} (C : Collab ε) (backend : String)
    (fresh : Bool) :
    (execute C backend fresh).2.countP isCreateEvent ≤ 1 ∧
    (isOkResult (execute C backend fresh).1 = true →
      (execute C backend fresh).2.countP isCreateEvent = 1 ∧
      (execute C backend fresh).2.countP isFinalizeEvent = 1) ∧
    (isOkResult (execute C backend fresh).1 = false →
      (execute C backend fresh).2.countP isFinalizeEvent = 0) := by
  rcases execute_scenarios C backend fresh with ⟨e, hfr, hd⟩ | ⟨hdok, hrest⟩
  · rw [execute_down_err C backend hfr hd]
    simp [isOkResult, isCreateEvent, isFinalizeEvent]
  · rcases hrest with ⟨e, hu⟩ | ⟨hu, hrest⟩
    · rw [execute_up_err C backend hdok hu]
      simp [isOkResult, isCreateEvent, isFinalizeEvent, List.countP_append,
        countP_create_resetTrace, countP_finalize_resetTrace]
    · rcases hrest with ⟨e, hn⟩ | ⟨hn, hrest⟩
      · rw [execute_node_err C backend hdok hu hn]
        simp [isOkResult, isCreateEvent, isFinalizeEvent, List.countP_append,
          countP_create_resetTrace, countP_finalize_resetTrace]
      · rcases hrest with ⟨e, hf⟩ | ⟨hf, hrest⟩
        · rw [execute_faucet_err C backend hdok hu hn hf]
          simp [isOkResult, isCreateEvent, isFinalizeEvent, List.countP_append,
            countP_create_resetTrace, countP_finalize_resetTrace]
        · rcases hrest with hb | ⟨hb, hrest⟩
          · rw [execute_ok_none C hdok hu hn hf hb]
            simp [isOkResult, isCreateEvent, isFinalizeEvent, List.countP_append,
              countP_create_resetTrace, countP_finalize_resetTrace]
          · rcases hrest with ⟨e, hba⟩ | hba
            · rw [execute_backend_err C hdok hu hn hf hb hba]
              simp [isOkResult, isCreateEvent, isFinalizeEvent, List.countP_append,
                countP_create_resetTrace, countP_finalize_resetTrace]
            · rw [execute_ok_backend C hdok hu hn hf hb hba]
              simp [isOkResult, isCreateEvent, isFinalizeEvent, List.countP_append,
                countP_create_resetTrace, countP_finalize_resetTrace]

/-- Witness for C8's amended theorem at a concrete successful run. -/
theorem C8_amended_progress_lifecycle_witness :
    (execute allOk "lwd" true).2.countP isCreateEvent = 1 ∧
    (execute allOk "lwd" true).2.countP isFinalizeEvent = 1 :=
  (C8_amended_progress_lifecycle allOk "lwd" true).2.1 rfl

/-- C10: the progress reporter's finalize operation is called exactly once
when the run succeeds and never when the run fails: finalize happens if and
only if the run succeeds. -/
theorem C10_finalize_iff_success {ε : Type} (C : Collab ε) (backend : String)
    (fresh : Bool) :
    (execute C backend fresh).2.countP isFinalizeEvent =
      (if isOkResult (execute C backend fresh).1 = true then 1 else 0) := by
  rcases execute_scenarios C backend fresh with ⟨e, hfr, hd⟩ | ⟨hdok, hrest⟩
  · rw [execute_down_err C backend hfr hd]
    simp [isOkResult, isFinalizeEvent]
  · rcases hrest with ⟨e, hu⟩ | ⟨hu, hrest⟩
    · rw [execute_up_err C backend hdok hu]
      simp [isOkResult, isFinalizeEvent, List.countP_append, countP_finalize_resetTrace]
    · rcases hrest with ⟨e, hn⟩ | ⟨hn, hrest⟩
      · rw [execute_node_err C backend hdok hu hn]
        simp [isOkResult, isFinalizeEvent, List.countP_append, countP_finalize_resetTrace]
      · rcases hrest with ⟨e, hf⟩ | ⟨hf, hrest⟩
        · rw [execute_faucet_err C backend hdok hu hn hf]
          simp [isOkResult, isFinalizeEvent, List.countP_append, countP_finalize_resetTrace]
        · rcases hrest with hb | ⟨hb, hrest⟩
          · rw [execute_ok_none C hdok hu hn hf hb]
            simp [isOkResult, isFinalizeEvent, List.countP_append, countP_finalize_resetTrace]
          · rcases hrest with ⟨e, hba⟩ | hba
            · rw [execute_backend_err C hdok hu hn hf hb hba]
              simp [isOkResult, isFinalizeEvent, List.countP_append,
                countP_finalize_resetTrace]
            · rw [execute_ok_backend C hdok hu hn hf hb hba]
              simp [isOkResult, isFinalizeEvent, List.countP_append,
                countP_finalize_resetTrace]
